import Mathlib

/-!
Shallow embedding of the project-creation dialog and the projects page of
the repository (src/redditanalysisUI-newUI/src/components/CreateProjectDialog.tsx
and the unnamed ProjectsPage source file).

The React components are modelled as pure transition functions over explicit
state records.  Remote calls (`api.analyzeInitial`, `api.createProject`,
`api.getProjects`, `api.deleteProject`) are parametrized by their outcome, an
`Except Unit _` value: the handler receives the outcome of the single awaited
call it issues and we record which calls were issued as a `List ApiCall`.
Toast notifications are recorded as a `List Toast`.
-/

namespace RedditUI

/-- A server-side project record (`Project` in `lib/api`): server-assigned
`id` plus the draft fields. -/
structure Project where
  id : String
  name : String
  description : String
  keywords : List String
  subreddits : List String
deriving DecidableEq, Repr

/-- The payload sent to `api.createProject` (`Omit<Project, 'id'>` after the
formatting in `handleSubmit`). -/
structure Payload where
  name : String
  description : String
  keywords : List String
  subreddits : List String
deriving DecidableEq, Repr

/-- Runtime value of the `keywords` / `subreddits` form fields.  The form is
typed `string[]` but `handleSubmit` defensively checks `Array.isArray`, so we
model the runtime possibility of a non-array value with `other`. -/
inductive FieldValue where
  | arr (l : List String) : FieldValue
  | other : FieldValue
deriving DecidableEq, Repr

/-- The react-hook-form state of the dialog (`useForm<Omit<Project,'id'>>`). -/
structure FormValues where
  name : String
  description : String
  keywords : FieldValue
  subreddits : FieldValue
deriving DecidableEq, Repr

/-- `defaultValues` passed to `useForm`: empty name/description, empty
keyword and subreddit arrays.  `reset()` restores these. -/
def defaultValues : FormValues :=
  { name := "", description := "", keywords := .arr [], subreddits := .arr [] }

/-- `isFormValid = name && description && description.length >= 10`
(line 44 of CreateProjectDialog.tsx); a JS string is truthy iff non-empty. -/
def isFormValid (f : FormValues) : Bool :=
  (!(f.name == "")) && (!(f.description == "")) && (decide (10 ≤ f.description.length))

/-- The result of `api.analyzeInitial`: derived keywords and subreddits. -/
structure AnalyzeData where
  keywords : List String
  subreddits : List String
deriving DecidableEq, Repr

/-- A toast notification (`toast.success` / `toast.error` from sonner). -/
inductive Toast where
  | success (msg : String) : Toast
  | error (msg : String) : Toast
deriving DecidableEq, Repr

/-- A remote call issued through `api`. -/
inductive ApiCall where
  | analyzeInitial (name description : String) : ApiCall
  | createProject (p : Payload) : ApiCall
  | getProjects : ApiCall
  | deleteProject (id : String) : ApiCall
deriving DecidableEq, Repr

/-- `s.replace(/^r\//, '')` (line 89): the regex matches a literal `r/` at
the start of the string only, and `String.prototype.replace` with a
non-global regex replaces the first match only, so exactly one leading
`r/` is removed when present. -/
def stripR (s : String) : String :=
  match s.data with
  | 'r' :: '/' :: rest => String.mk rest
  | _ => s

/-- Whether a string starts with the two characters `r/`. -/
def startsRSlash (s : String) : Bool :=
  match s.data with
  | 'r' :: '/' :: _ => true
  | _ => false

/-- Whether a string starts with the four characters `r/r/`. -/
def startsRSlashTwice (s : String) : Bool :=
  match s.data with
  | 'r' :: '/' :: 'r' :: '/' :: _ => true
  | _ => false

/-- The `formattedData` computed in `handleSubmit` (lines 84-90): spread of
the form values with `keywords` and `subreddits` coerced to arrays
(`Array.isArray(x) ? x : []`) and each subreddit stripped of a leading
`r/`. -/
def formattedData (f : FormValues) : Payload :=
  { name := f.name
    description := f.description
    keywords := match f.keywords with
      | .arr l => l
      | .other => []
    subreddits := match f.subreddits with
      | .arr l => l.map stripR
      | .other => [] }

/-- The request kind currently awaited by the dialog. -/
inductive ReqKind where
  | analyzeReq : ReqKind
  | submitReq : ReqKind
deriving DecidableEq, Repr

/-- Local state of `CreateProjectDialog`: the `open` prop (owned by the
parent's `isCreateOpen`), the wizard `step` (1 or 2), the `loading` busy
flag and message, the form values, and which awaited request (if any) is
in flight. -/
structure DialogState where
  isOpen : Bool
  step : Nat
  loading : Bool
  loadingMessage : String
  form : FormValues
  inFlight : Option ReqKind
deriving DecidableEq, Repr

/-- The dialog's initial state: closed, step 1, not loading, default form. -/
def initialState : DialogState :=
  { isOpen := false, step := 1, loading := false, loadingMessage := ""
    form := defaultValues, inFlight := none }

/-- `disabled={!isFormValid || loading}` on the Analyze button (line 144). -/
def analyzeDisabled (s : DialogState) : Bool :=
  (!(isFormValid s.form)) || s.loading

/-- `disabled={loading}` on the Create Project button (line 191). -/
def submitDisabled (s : DialogState) : Bool :=
  s.loading

/-- `handleAnalyze` (lines 54-78) run from start to completion of the single
awaited `api.analyzeInitial` call, whose outcome is `svc`.  Returns the
resulting state, the calls issued, and the toasts shown.  If the form is
invalid it toasts and returns without any call; otherwise it issues the
call, on success stores the returned keywords/subreddits and moves to step
2, on failure toasts; the `finally` block clears `loading` either way. -/
def handleAnalyze (s : DialogState) (svc : Except Unit AnalyzeData) :
    DialogState × List ApiCall × List Toast :=
  if isFormValid s.form then
    match svc with
    | .ok data =>
        ({ s with
            form := { s.form with
              keywords := .arr data.keywords
              subreddits := .arr data.subreddits }
            step := 2
            loading := false
            loadingMessage := "" },
         [ApiCall.analyzeInitial s.form.name s.form.description], [])
    | .error _ =>
        ({ s with loading := false, loadingMessage := "" },
         [ApiCall.analyzeInitial s.form.name s.form.description],
         [Toast.error "Failed to analyze project. Please try again."])
  else
    (s, [],
     [Toast.error "Please enter a project name and description (at least 10 characters)"])

/-- The projects page state: the held project list, the dialog-open flag
and the page's loading spinner flag. -/
structure PageState where
  projects : List Project
  isCreateOpen : Bool
  isLoading : Bool
deriving DecidableEq, Repr

/-- `loadProjects` (ProjectsPage lines 29-39) with the outcome of
`api.getProjects`: on success the held list is replaced wholesale by the
fetched list; on failure it is left untouched and an error toast is shown;
`finally` clears `isLoading` either way. -/
def loadProjects (st : PageState) (svc : Except Unit (List Project)) :
    PageState × List ApiCall × List Toast :=
  match svc with
  | .ok fetched =>
      ({ st with projects := fetched, isLoading := false }, [ApiCall.getProjects], [])
  | .error _ =>
      ({ st with isLoading := false }, [ApiCall.getProjects],
       [Toast.error "Failed to load projects. Please try again."])

/-- `handleCreateProject` (ProjectsPage lines 41-51) with the outcome of
`api.createProject`: on success appends the server-returned project and
toasts; on failure toasts and re-throws (the final `Bool` is whether it
threw, propagating the error to the dialog). -/
def handleCreateProject (projects : List Project) (payload : Payload)
    (svc : Except Unit Project) : List Project × List ApiCall × List Toast × Bool :=
  match svc with
  | .ok newProject =>
      (projects ++ [newProject], [ApiCall.createProject payload],
       [Toast.success "Project created successfully!"], false)
  | .error _ =>
      (projects, [ApiCall.createProject payload],
       [Toast.error "Failed to create project. Please try again."], true)

/-- `handleDeleteProject` (ProjectsPage lines 53-66): optimistically filters
the project out of the held list, then awaits `api.deleteProject` (outcome
`delSvc`); on failure it runs `loadProjects` to resynchronize (outcome
`loadSvc` of the `api.getProjects` it issues) and toasts an error. -/
def handleDeleteProject (st : PageState) (projectId : String)
    (delSvc : Except Unit Unit) (loadSvc : Except Unit (List Project)) :
    PageState × List ApiCall × List Toast :=
  let optimistic : PageState := { st with projects := st.projects.filter (fun p => !(p.id == projectId)) }
  match delSvc with
  | .ok _ =>
      (optimistic, [ApiCall.deleteProject projectId],
       [Toast.success "Project deleted successfully"])
  | .error _ =>
      match loadProjects optimistic loadSvc with
      | (st2, calls2, toasts2) =>
          (st2, ApiCall.deleteProject projectId :: calls2,
           toasts2 ++ [Toast.error "Failed to delete project. Please try again."])

/-- Combined state of the page and the dialog it renders; the dialog's
`open` prop is the page's `isCreateOpen` (here held in `dialog.isOpen`). -/
structure AppState where
  projects : List Project
  dialog : DialogState
deriving DecidableEq, Repr

/-- `handleSubmit` (dialog lines 80-102) run to completion together with the
parent's `onProjectCreated = handleCreateProject`, whose single awaited
`api.createProject` call has outcome `svc`.  The dialog computes
`formattedData`, awaits the parent; on parent success the parent has
appended the project, the dialog closes (`onOpenChange(false)`, which
resets the form and step via the close effect) and toasts success; on
parent re-throw the dialog catches and toasts; `finally` clears
`loading`. -/
def handleSubmit (app : AppState) (svc : Except Unit Project) :
    AppState × List ApiCall × List Toast :=
  let payload := formattedData app.dialog.form
  match handleCreateProject app.projects payload svc with
  | (ps, calls, parentToasts, threw) =>
      if threw then
        ({ projects := ps
           dialog := { app.dialog with loading := false, loadingMessage := "" } },
         calls,
         parentToasts ++ [Toast.error "Failed to create project. Please try again."])
      else
        ({ projects := ps
           dialog := { app.dialog with
              isOpen := false
              form := defaultValues
              step := 1
              loading := false
              loadingMessage := "" } },
         calls,
         parentToasts ++ [Toast.success "Project created successfully!"])

/-- A user-interface / completion event for the dialog's small-step
transition system. -/
inductive DEvent where
  | setOpen (b : Bool) : DEvent
  | edit (name description : String) : DEvent
  | clickAnalyze : DEvent
  | analyzeDone (res : Except Unit AnalyzeData) : DEvent
  | clickBack : DEvent
  | clickSubmit : DEvent
  | submitDone (res : Except Unit Project) : DEvent

/-- Small-step transition function of the dialog.  Click events fire only
when the control is rendered (step, dialog open) and not `disabled`; the
`useEffect` on `open` (lines 47-52) resets the form and step whenever the
dialog is closed; `analyzeDone`/`submitDone` deliver the completion of the
in-flight awaited call.  The second component lists the remote calls
issued by the step. -/
def dialogStep (s : DialogState) : DEvent → DialogState × List ApiCall
  | .setOpen b =>
      if b then ({ s with isOpen := true }, [])
      else ({ s with isOpen := false, form := defaultValues, step := 1 }, [])
  | .edit n d =>
      if s.isOpen && s.step == 1 && !s.loading then
        ({ s with form := { s.form with name := n, description := d } }, [])
      else (s, [])
  | .clickAnalyze =>
      if s.isOpen && s.step == 1 && !(analyzeDisabled s) then
        if isFormValid s.form then
          ({ s with loading := true
                    loadingMessage := "Analyzing your project..."
                    inFlight := some .analyzeReq },
           [ApiCall.analyzeInitial s.form.name s.form.description])
        else (s, [])
      else (s, [])
  | .analyzeDone res =>
      if s.inFlight == some .analyzeReq then
        match res with
        | .ok d =>
            ({ s with
                form := { s.form with
                          keywords := .arr d.keywords,
                          subreddits := .arr d.subreddits },
                step := 2, loading := false, loadingMessage := "", inFlight := none }, [])
        | .error _ =>
            ({ s with loading := false, loadingMessage := "", inFlight := none }, [])
      else (s, [])
  | .clickBack =>
      if s.isOpen && !(s.step == 1) && !s.loading then
        ({ s with step := 1 }, [])
      else (s, [])
  | .clickSubmit =>
      if s.isOpen && !(s.step == 1) && !(submitDisabled s) then
        ({ s with loading := true
                  loadingMessage := "Creating your project..."
                  inFlight := some .submitReq },
         [ApiCall.createProject (formattedData s.form)])
      else (s, [])
  | .submitDone res =>
      if s.inFlight == some .submitReq then
        match res with
        | .ok _ =>
            ({ s with isOpen := false, form := defaultValues, step := 1,
                      loading := false, loadingMessage := "", inFlight := none }, [])
        | .error _ =>
            ({ s with loading := false, loadingMessage := "", inFlight := none }, [])
      else (s, [])

/-- States of the dialog reachable from its initial state under any
sequence of events with any service outcomes. -/
inductive Reachable : DialogState → Prop where
  | init : Reachable initialState
  | next {s : DialogState} (e : DEvent) : Reachable s → Reachable (dialogStep s e).1

/-! Helper lemmas. -/

/-- The validity guard of `handleAnalyze` holds exactly when the name is
non-empty and the description has at least 10 characters (a description of
length at least 10 is in particular non-empty, so the middle truthiness
conjunct is redundant). -/
theorem isFormValid_iff (f : FormValues) :
    isFormValid f = true ↔ f.name ≠ "" ∧ 10 ≤ f.description.length := by
  unfold isFormValid
  simp only [Bool.and_eq_true, Bool.not_eq_true', beq_eq_false_iff_ne, ne_eq,
    decide_eq_true_eq]
  constructor
  · rintro ⟨⟨h1, _⟩, h3⟩
    exact ⟨h1, h3⟩
  · rintro ⟨h1, h3⟩
    refine ⟨⟨h1, ?_⟩, h3⟩
    intro hd
    rw [hd] at h3
    exact absurd h3 (by decide)

/-- The validity guard fails exactly when the name is empty or the
description is shorter than 10 characters. -/
theorem isFormValid_eq_false_iff (f : FormValues) :
    isFormValid f = false ↔ f.name = "" ∨ f.description.length < 10 := by
  rw [← Bool.not_eq_true, isFormValid_iff]
  constructor
  · intro h
    by_cases hn : f.name = ""
    · exact Or.inl hn
    · right
      by_contra hlt
      push_neg at hlt
      exact h ⟨hn, hlt⟩
  · rintro (h | h) hc
    · exact hc.1 h
    · have := hc.2
      omega

/-- Stripping one leading `r/` from a string that does not begin with
`r/r/` yields a string that does not begin with `r/`. -/
theorem stripR_no_lead (s : String) (h : startsRSlashTwice s = false) :
    startsRSlash (stripR s) = false := by
  obtain ⟨d⟩ := s
  unfold startsRSlashTwice at h
  dsimp only at h
  unfold stripR
  dsimp only
  split
  next rest =>
    unfold startsRSlash
    dsimp only
    split
    next tail =>
      simp at h
    next x hne => rfl
  next x hne =>
    unfold startsRSlash
    dsimp only
    split
    next tail => exact absurd rfl (hne tail)
    next => rfl

/-! Claim theorems. -/

/-- C2: `handleAnalyze` issues no `analyzeInitial` call and surfaces the
validation toast whenever the draft name is empty or the description is
shorter than 10 characters; whenever the name is non-empty and the
description has at least 10 characters, the `analyzeInitial` call is
issued. -/
theorem handleAnalyze_validation (s : DialogState) (svc : Except Unit AnalyzeData) :
    ((s.form.name = "" ∨ s.form.description.length < 10) →
        (handleAnalyze s svc).2.1 = [] ∧
        (handleAnalyze s svc).2.2 =
          [Toast.error "Please enter a project name and description (at least 10 characters)"]) ∧
    ((s.form.name ≠ "" ∧ 10 ≤ s.form.description.length) →
        (handleAnalyze s svc).2.1 =
          [ApiCall.analyzeInitial s.form.name s.form.description]) := by
  constructor
  · intro h
    have hv : isFormValid s.form = false := (isFormValid_eq_false_iff s.form).mpr h
    simp [handleAnalyze, hv]
  · intro h
    have hv : isFormValid s.form = true := (isFormValid_iff s.form).mpr h
    cases svc <;> simp [handleAnalyze, hv]

/-- Witness for `handleAnalyze_validation`: the empty initial draft blocks
the call with the validation toast, and a concrete valid draft issues the
call. -/
theorem handleAnalyze_validation_witness :
    ((handleAnalyze initialState (Except.ok ⟨[], []⟩)).2.1 = [] ∧
     (handleAnalyze initialState (Except.ok ⟨[], []⟩)).2.2 =
       [Toast.error "Please enter a project name and description (at least 10 characters)"]) ∧
    (handleAnalyze { initialState with
        form := { name := "a", description := "0123456789",
                  keywords := .arr [], subreddits := .arr [] } }
        (Except.ok ⟨[], []⟩)).2.1 = [ApiCall.analyzeInitial "a" "0123456789"] :=
  ⟨(handleAnalyze_validation initialState (Except.ok ⟨[], []⟩)).1 (Or.inl rfl),
   (handleAnalyze_validation { initialState with
        form := { name := "a", description := "0123456789",
                  keywords := .arr [], subreddits := .arr [] } }
        (Except.ok ⟨[], []⟩)).2 ⟨by decide, by decide⟩⟩

/-- C5: on a successful analysis of a valid draft in step 1, the dialog
moves to step 2 (Review) holding exactly the returned keywords and
subreddits, with name and description unchanged; on a failed analysis it
stays in step 1 with the whole form unchanged. -/
theorem handleAnalyze_review_transition (s : DialogState) (d : AnalyzeData)
    (hv : isFormValid s.form = true) (hstep : s.step = 1) :
    ((handleAnalyze s (Except.ok d)).1.step = 2 ∧
     (handleAnalyze s (Except.ok d)).1.form.keywords = FieldValue.arr d.keywords ∧
     (handleAnalyze s (Except.ok d)).1.form.subreddits = FieldValue.arr d.subreddits ∧
     (handleAnalyze s (Except.ok d)).1.form.name = s.form.name ∧
     (handleAnalyze s (Except.ok d)).1.form.description = s.form.description) ∧
    ((handleAnalyze s (Except.error ())).1.step = 1 ∧
     (handleAnalyze s (Except.error ())).1.form = s.form) := by
  simp [handleAnalyze, hv, hstep]

/-- A concrete valid draft (name `"a"`, 10-character description) with the
dialog open at step 1. -/
def stateC5 : DialogState :=
  { initialState with
      isOpen := true
      form := { name := "a", description := "0123456789",
                keywords := .arr [], subreddits := .arr [] } }

/-- Witness for `handleAnalyze_review_transition` at a concrete valid
draft and a concrete analysis result. -/
theorem handleAnalyze_review_transition_witness :
    ((handleAnalyze stateC5 (Except.ok ⟨["kw"], ["golang"]⟩)).1.step = 2 ∧
     (handleAnalyze stateC5 (Except.ok ⟨["kw"], ["golang"]⟩)).1.form.keywords =
       FieldValue.arr ["kw"] ∧
     (handleAnalyze stateC5 (Except.ok ⟨["kw"], ["golang"]⟩)).1.form.subreddits =
       FieldValue.arr ["golang"] ∧
     (handleAnalyze stateC5 (Except.ok ⟨["kw"], ["golang"]⟩)).1.form.name =
       stateC5.form.name ∧
     (handleAnalyze stateC5 (Except.ok ⟨["kw"], ["golang"]⟩)).1.form.description =
       stateC5.form.description) ∧
    ((handleAnalyze stateC5 (Except.error ())).1.step = 1 ∧
     (handleAnalyze stateC5 (Except.error ())).1.form = stateC5.form) :=
  handleAnalyze_review_transition stateC5 ⟨["kw"], ["golang"]⟩ (by decide) (by decide)

/-- The draft of testable property C6: subreddits `["r/golang", "rust"]`. -/
def formC6 : FormValues :=
  { name := "My project", description := "Track mentions everywhere",
    keywords := .arr ["go", "rust"], subreddits := .arr ["r/golang", "rust"] }

/-- App state holding the C6 draft at the review step. -/
def appC6 : AppState :=
  { projects := []
    dialog := { initialState with isOpen := true, step := 2, form := formC6 } }

/-- C6: submitting a draft whose subreddits are `["r/golang", "rust"]`
issues `createProject` with a payload whose subreddits are
`["golang", "rust"]`, and re-normalizing the already-normalized list
`["golang", "rust"]` leaves it unchanged. -/
theorem submit_normalizes_subreddits :
    (handleSubmit appC6 (Except.error ())).2.1 =
      [ApiCall.createProject
        { name := "My project", description := "Track mentions everywhere",
          keywords := ["go", "rust"], subreddits := ["golang", "rust"] }] ∧
    List.map stripR ["golang", "rust"] = ["golang", "rust"] := by
  exact ⟨rfl, rfl⟩

/-- The form state refuting C3 as stated: a subreddit `"r/r/golang"`. -/
def formC3 : FormValues :=
  { name := "p", description := "0123456789",
    keywords := .arr [], subreddits := .arr ["r/r/golang"] }

/-- App state holding the C3 counterexample draft at the review step. -/
def appC3 : AppState :=
  { projects := []
    dialog := { initialState with isOpen := true, step := 2, form := formC3 } }

/-- C3 fails as stated: the normalization strips only one leading `r/`,
so the form subreddit `"r/r/golang"` reaches the `createProject` payload
as `"r/golang"`, which still starts with `r/`. -/
theorem submit_subreddit_rslash_cex :
    (handleSubmit appC3 (Except.error ())).2.1 =
      [ApiCall.createProject
        { name := "p", description := "0123456789",
          keywords := [], subreddits := ["r/golang"] }] ∧
    startsRSlash "r/golang" = true := by
  exact ⟨rfl, rfl⟩

/-- C3 (amended): the normalization strips exactly one leading `r/`, so
whenever no subreddit string in the form state starts with `r/r/`, no
subreddit string in the submitted payload starts with `r/`. -/
theorem formattedData_subreddits_no_lead (f : FormValues) (l : List String)
    (hf : f.subreddits = FieldValue.arr l)
    (h : ∀ x ∈ l, startsRSlashTwice x = false) :
    ∀ t ∈ (formattedData f).subreddits, startsRSlash t = false := by
  intro t ht
  have hsub : (formattedData f).subreddits = l.map stripR := by
    simp [formattedData, hf]
  rw [hsub] at ht
  obtain ⟨x, hx, rfl⟩ := List.mem_map.mp ht
  exact stripR_no_lead x (h x hx)

/-- Witness for `formattedData_subreddits_no_lead` at the concrete form
subreddits `["r/golang", "rust"]`, instantiated at both payload members. -/
theorem formattedData_subreddits_no_lead_witness :
    startsRSlash "golang" = false ∧ startsRSlash "rust" = false :=
  ⟨formattedData_subreddits_no_lead
      { name := "p", description := "0123456789",
        keywords := .arr [], subreddits := .arr ["r/golang", "rust"] }
      ["r/golang", "rust"] rfl (by decide) "golang" (by decide),
   formattedData_subreddits_no_lead
      { name := "p", description := "0123456789",
        keywords := .arr [], subreddits := .arr ["r/golang", "rust"] }
      ["r/golang", "rust"] rfl (by decide) "rust" (by decide)⟩

/-- C8: when `getProjects` fails, `loadProjects` leaves the held project
list exactly as it was, surfaces a single error toast, and still clears
the page spinner (the failure is caught, not propagated). -/
theorem loadProjects_failure_keeps_list (st : PageState) :
    (loadProjects st (Except.error ())).1.projects = st.projects ∧
    (loadProjects st (Except.error ())).2.2 =
      [Toast.error "Failed to load projects. Please try again."] ∧
    (loadProjects st (Except.error ())).1.isLoading = false := by
  simp [loadProjects]

/-- C1: when `createProject` fails during submit, the creation flow keeps
the dialog open at the review step with the whole draft (name,
description, keywords, subreddits) unchanged, and the held project list
is not extended: no state other than the busy flag is touched, so the
submit can simply be retried. -/
theorem handleSubmit_failure_preserves (app : AppState)
    (hstep : app.dialog.step = 2) (hopen : app.dialog.isOpen = true) :
    (handleSubmit app (Except.error ())).1.projects = app.projects ∧
    (handleSubmit app (Except.error ())).1.dialog.step = 2 ∧
    (handleSubmit app (Except.error ())).1.dialog.isOpen = true ∧
    (handleSubmit app (Except.error ())).1.dialog.form = app.dialog.form := by
  simp [handleSubmit, handleCreateProject, hstep, hopen]

/-- A concrete held project used by the C1 witness. -/
def projC1 : Project :=
  { id := "1", name := "old", description := "old desc",
    keywords := [], subreddits := [] }

/-- A concrete reviewed draft used by the C1 witness. -/
def formC1 : FormValues :=
  { name := "a", description := "0123456789",
    keywords := .arr ["kw"], subreddits := .arr ["golang"] }

/-- App state for the C1 witness: one held project, dialog open at the
review step over the reviewed draft. -/
def appC1 : AppState :=
  { projects := [projC1]
    dialog := { initialState with isOpen := true, step := 2, form := formC1 } }

/-- Witness for `handleSubmit_failure_preserves` at the review step over
a concrete reviewed draft and one already-held project. -/
theorem handleSubmit_failure_preserves_witness :
    (handleSubmit appC1 (Except.error ())).1.projects = [projC1] ∧
    (handleSubmit appC1 (Except.error ())).1.dialog.step = 2 ∧
    (handleSubmit appC1 (Except.error ())).1.dialog.isOpen = true ∧
    (handleSubmit appC1 (Except.error ())).1.dialog.form = formC1 :=
  handleSubmit_failure_preserves appC1 (by decide) (by decide)

/-- C4: when `deleteProject` fails and the reconciliation `loadProjects`
succeeds, the final held list is exactly the server's list, and whenever
the server's list differs from the optimistically-filtered intermediate
list, the final list is not that intermediate list. -/
theorem handleDeleteProject_failure_reconciles (st : PageState)
    (projectId : String) (server : List Project)
    (hne : server ≠ st.projects.filter (fun p => !(p.id == projectId))) :
    (handleDeleteProject st projectId (Except.error ()) (Except.ok server)).1.projects =
      server ∧
    (handleDeleteProject st projectId (Except.error ()) (Except.ok server)).1.projects ≠
      st.projects.filter (fun p => !(p.id == projectId)) := by
  refine ⟨?_, ?_⟩
  · simp [handleDeleteProject, loadProjects]
  · simp only [handleDeleteProject, loadProjects]
    exact hne

/-- Witness for `handleDeleteProject_failure_reconciles`: deleting the only
held project fails, the reload returns it, and the final list holds it
rather than being the optimistically-emptied list. -/
theorem handleDeleteProject_failure_reconciles_witness :
    (handleDeleteProject
        { projects := [{ id := "1", name := "n", description := "d",
                         keywords := [], subreddits := [] }]
          isCreateOpen := false, isLoading := false }
        "1" (Except.error ())
        (Except.ok [{ id := "1", name := "n", description := "d",
                      keywords := [], subreddits := [] }])).1.projects =
      [{ id := "1", name := "n", description := "d",
         keywords := [], subreddits := [] }] ∧
    (handleDeleteProject
        { projects := [{ id := "1", name := "n", description := "d",
                         keywords := [], subreddits := [] }]
          isCreateOpen := false, isLoading := false }
        "1" (Except.error ())
        (Except.ok [{ id := "1", name := "n", description := "d",
                      keywords := [], subreddits := [] }])).1.projects ≠
      List.filter (fun p => !(p.id == "1"))
        [{ id := "1", name := "n", description := "d",
           keywords := [], subreddits := [] }] :=
  handleDeleteProject_failure_reconciles
    { projects := [{ id := "1", name := "n", description := "d",
                     keywords := [], subreddits := [] }]
      isCreateOpen := false, isLoading := false }
    "1"
    [{ id := "1", name := "n", description := "d",
       keywords := [], subreddits := [] }]
    (by decide)

/-- C10: the payload passed to `createProject` is always the formatted
data, whose keywords and subreddits are lists; a non-array runtime value
in either form field is replaced by the empty list before submission. -/
theorem handleSubmit_payload_arrays (app : AppState) (svc : Except Unit Project) :
    (handleSubmit app svc).2.1 =
      [ApiCall.createProject (formattedData app.dialog.form)] ∧
    (app.dialog.form.keywords = FieldValue.other →
      (formattedData app.dialog.form).keywords = []) ∧
    (app.dialog.form.subreddits = FieldValue.other →
      (formattedData app.dialog.form).subreddits = []) := by
  refine ⟨?_, ?_, ?_⟩
  · cases svc <;> simp [handleSubmit, handleCreateProject]
  · intro h
    simp [formattedData, h]
  · intro h
    simp [formattedData, h]

/-- A form state whose keywords and subreddits hold non-array runtime
values. -/
def formC10 : FormValues :=
  { name := "a", description := "0123456789",
    keywords := .other, subreddits := .other }

/-- App state for the C10 witness: dialog at the review step over a form
with non-array keywords and subreddits. -/
def appC10 : AppState :=
  { projects := []
    dialog := { initialState with isOpen := true, step := 2, form := formC10 } }

/-- Witness for `handleSubmit_payload_arrays`: with non-array keywords and
subreddits, the submitted payload carries empty lists for both. -/
theorem handleSubmit_payload_arrays_witness :
    (handleSubmit appC10 (Except.error ())).2.1 =
      [ApiCall.createProject (formattedData formC10)] ∧
    (formattedData formC10).keywords = [] ∧
    (formattedData formC10).subreddits = [] :=
  ⟨(handleSubmit_payload_arrays appC10 (Except.error ())).1,
   (handleSubmit_payload_arrays appC10 (Except.error ())).2.1 rfl,
   (handleSubmit_payload_arrays appC10 (Except.error ())).2.2 rfl⟩

/-- Run a sequence of events through the dialog transition function. -/
def runEvents (s : DialogState) (es : List DEvent) : DialogState :=
  es.foldl (fun t e => (dialogStep t e).1) s

/-- Whether an event is an open/close of the dialog by the parent. -/
def isSetOpen : DEvent → Bool
  | .setOpen _ => true
  | _ => false

/-- One step of the closed-and-empty invariant: a closed dialog showing
the default draft at step 1, with no analysis request in flight, stays
that way under every event that does not open or close the dialog (clicks
and edits are gated on the dialog being open; a stale `analyzeDone` finds
no matching in-flight request; a `submitDone` either closes-and-resets or
only clears the busy flag). -/
theorem closedEmptyInv_step (s : DialogState) (e : DEvent)
    (h1 : s.isOpen = false) (h2 : s.form = defaultValues) (h3 : s.step = 1)
    (h4 : s.inFlight ≠ some ReqKind.analyzeReq) (he : isSetOpen e = false) :
    (dialogStep s e).1.isOpen = false ∧ (dialogStep s e).1.form = defaultValues ∧
    (dialogStep s e).1.step = 1 ∧ (dialogStep s e).1.inFlight ≠ some ReqKind.analyzeReq := by
  cases e <;> simp only [dialogStep] <;> (repeat' split) <;> simp_all [isSetOpen]

/-- The closed-and-empty invariant is preserved by any sequence of events
that never opens or closes the dialog. -/
theorem closedEmptyInv_run (es : List DEvent) (s : DialogState)
    (h1 : s.isOpen = false) (h2 : s.form = defaultValues) (h3 : s.step = 1)
    (h4 : s.inFlight ≠ some ReqKind.analyzeReq)
    (he : ∀ e ∈ es, isSetOpen e = false) :
    (runEvents s es).isOpen = false ∧ (runEvents s es).form = defaultValues ∧
    (runEvents s es).step = 1 ∧ (runEvents s es).inFlight ≠ some ReqKind.analyzeReq := by
  induction es generalizing s with
  | nil => exact ⟨h1, h2, h3, h4⟩
  | cons e es ih =>
    have hstep := closedEmptyInv_step s e h1 h2 h3 h4 (he e (List.mem_cons_self e es))
    exact ih (dialogStep s e).1 hstep.1 hstep.2.1 hstep.2.2.1 hstep.2.2.2
      (fun x hx => he x (List.mem_cons_of_mem e hx))

/-- The trace refuting C7 as stated: open the dialog, type a valid draft,
click Analyze, close the dialog while the analysis is in flight, let the
pending analysis resolve, reopen. -/
def reopenedState : DialogState :=
  runEvents initialState
    [DEvent.setOpen true, DEvent.edit "a" "0123456789", DEvent.clickAnalyze,
     DEvent.setOpen false, DEvent.analyzeDone (Except.ok ⟨["kw"], ["golang"]⟩),
     DEvent.setOpen true]

/-- C7 fails as stated: the trace `reopenedState` closes the dialog (which
does reset the form and step) while an analysis is in flight, but the
resolving analysis then stores its keywords/subreddits and moves to step
2 on the still-mounted component, so the reopened dialog shows the
discarded draft's analysis at the review step, not an empty draft. -/
theorem close_reset_reopen_cex :
    Reachable reopenedState ∧
    reopenedState.isOpen = true ∧
    reopenedState.step = 2 ∧
    reopenedState.form.keywords = FieldValue.arr ["kw"] ∧
    reopenedState.form.subreddits = FieldValue.arr ["golang"] ∧
    reopenedState.form ≠ defaultValues := by
  refine ⟨?_, by decide, by decide, by decide, by decide, by decide⟩
  exact Reachable.next (DEvent.setOpen true)
    (Reachable.next (DEvent.analyzeDone (Except.ok ⟨["kw"], ["golang"]⟩))
      (Reachable.next (DEvent.setOpen false)
        (Reachable.next DEvent.clickAnalyze
          (Reachable.next (DEvent.edit "a" "0123456789")
            (Reachable.next (DEvent.setOpen true) Reachable.init)))))

/-- C7 (amended): closing the dialog from any state resets the form to the
empty default draft at step 1; and provided no analysis request is in
flight at the moment of closing, then after any further events that do
not open or close the dialog (stale completions included), reopening
shows exactly the empty draft at step 1. -/
theorem close_reset_reopen_empty (s : DialogState) :
    ((dialogStep s (DEvent.setOpen false)).1.form.name = "" ∧
     (dialogStep s (DEvent.setOpen false)).1.form.description = "" ∧
     (dialogStep s (DEvent.setOpen false)).1.form.keywords = FieldValue.arr [] ∧
     (dialogStep s (DEvent.setOpen false)).1.form.subreddits = FieldValue.arr [] ∧
     (dialogStep s (DEvent.setOpen false)).1.step = 1) ∧
    (s.inFlight ≠ some ReqKind.analyzeReq →
      ∀ es : List DEvent, (∀ e ∈ es, isSetOpen e = false) →
        (dialogStep (runEvents (dialogStep s (DEvent.setOpen false)).1 es)
            (DEvent.setOpen true)).1.form = defaultValues ∧
        (dialogStep (runEvents (dialogStep s (DEvent.setOpen false)).1 es)
            (DEvent.setOpen true)).1.step = 1) := by
  constructor
  · simp [dialogStep, defaultValues]
  · intro hin es hes
    have hclosed := closedEmptyInv_run es (dialogStep s (DEvent.setOpen false)).1
      (by simp [dialogStep]) (by simp [dialogStep]) (by simp [dialogStep])
      (by simp [dialogStep]; exact hin) hes
    have hopen : ∀ t : DialogState,
        (dialogStep t (DEvent.setOpen true)).1.form = t.form ∧
        (dialogStep t (DEvent.setOpen true)).1.step = t.step := by
      intro t
      simp [dialogStep]
    exact ⟨(hopen _).1.trans hclosed.2.1, (hopen _).2.trans hclosed.2.2.1⟩

/-- A dialog at the review step with a submission in flight, used by the
C7 witness. -/
def stateC7 : DialogState :=
  { isOpen := true, step := 2, loading := true,
    loadingMessage := "Creating your project..."
    form := { name := "a", description := "0123456789",
              keywords := .arr ["kw"], subreddits := .arr ["golang"] }
    inFlight := some ReqKind.submitReq }

/-- Witness for `close_reset_reopen_empty`: closing during an in-flight
submission resets the draft, and after the pending submission fails and
the dialog is reopened, it still shows the empty draft at step 1. -/
theorem close_reset_reopen_empty_witness :
    ((dialogStep stateC7 (DEvent.setOpen false)).1.form.name = "" ∧
     (dialogStep stateC7 (DEvent.setOpen false)).1.form.description = "" ∧
     (dialogStep stateC7 (DEvent.setOpen false)).1.form.keywords = FieldValue.arr [] ∧
     (dialogStep stateC7 (DEvent.setOpen false)).1.form.subreddits = FieldValue.arr [] ∧
     (dialogStep stateC7 (DEvent.setOpen false)).1.step = 1) ∧
    ((dialogStep (runEvents (dialogStep stateC7 (DEvent.setOpen false)).1
        [DEvent.submitDone (Except.error ())]) (DEvent.setOpen true)).1.form =
      defaultValues ∧
     (dialogStep (runEvents (dialogStep stateC7 (DEvent.setOpen false)).1
        [DEvent.submitDone (Except.error ())]) (DEvent.setOpen true)).1.step = 1) :=
  ⟨(close_reset_reopen_empty stateC7).1,
   (close_reset_reopen_empty stateC7).2 (by decide)
     [DEvent.submitDone (Except.error ())]
     (fun e hemem => by
       simp only [List.mem_singleton] at hemem
       rw [hemem]
       rfl)⟩

/-- In every reachable dialog state the busy flag holds exactly when a
request is in flight. -/
theorem reachable_loading_inflight {s : DialogState} (h : Reachable s) :
    s.loading = s.inFlight.isSome := by
  induction h with
  | init => rfl
  | next e hr ih =>
    cases e <;> simp only [dialogStep] <;> (repeat' split) <;> simp_all

/-- C9: in every reachable dialog state with an analysis or submission
request in flight, the busy flag is set, both triggering controls are
disabled, and clicking either control neither changes the state nor
issues a call: a second request cannot start before the first completes. -/
theorem inflight_controls_disabled (s : DialogState) (hr : Reachable s)
    (hf : s.inFlight.isSome = true) :
    s.loading = true ∧
    analyzeDisabled s = true ∧
    submitDisabled s = true ∧
    dialogStep s DEvent.clickAnalyze = (s, []) ∧
    dialogStep s DEvent.clickSubmit = (s, []) := by
  have hl : s.loading = true := (reachable_loading_inflight hr).trans hf
  refine ⟨hl, ?_, ?_, ?_, ?_⟩
  · simp [analyzeDisabled, hl]
  · simp [submitDisabled, hl]
  · simp [dialogStep, analyzeDisabled, hl]
  · simp [dialogStep, submitDisabled, hl]

/-- A reachable dialog state with an analysis request in flight: open the
dialog, type a valid draft, click Analyze. -/
def inflightState : DialogState :=
  (dialogStep (dialogStep (dialogStep initialState (DEvent.setOpen true)).1
    (DEvent.edit "a" "0123456789")).1 DEvent.clickAnalyze).1

/-- Witness for `inflight_controls_disabled` at the concrete reachable
state with the analysis request in flight. -/
theorem inflight_controls_disabled_witness :
    inflightState.loading = true ∧
    analyzeDisabled inflightState = true ∧
    submitDisabled inflightState = true ∧
    dialogStep inflightState DEvent.clickAnalyze = (inflightState, []) ∧
    dialogStep inflightState DEvent.clickSubmit = (inflightState, []) :=
  inflight_controls_disabled inflightState
    (Reachable.next DEvent.clickAnalyze
      (Reachable.next (DEvent.edit "a" "0123456789")
        (Reachable.next (DEvent.setOpen true) Reachable.init)))
    (by decide)

end RedditUI
